import Mathlib

/-!
Shallow embedding of the cupcakesandcrumbsco backend
(src/backend/main.py, email_utils.py, payment_utils.py, config.py).

The relational store (tables products, orders, order_items) is modelled as
explicit lists of rows; SQL statements become list operations; the
transaction in create_order either commits (new store) or rolls back
(original store).  External collaborators (the Razorpay gateway, SMTP) are
modelled as function parameters / returned messages.
-/

/-- A row of the products table (see schema used in main.py queries). -/
structure Product where
  id : Int
  name : String
  flavour : Option String
  pack_size : String
  price : Int
  is_active : Bool
deriving DecidableEq

/-- A row of the orders table.  created_at is the server-assigned timestamp
(modelled as an integer day number since the claims do not rely on
time-of-day). -/
structure OrderRow where
  id : Int
  customer_name : String
  phone : String
  address : String
  note : Option String
  status : String
  created_at : Int
deriving DecidableEq

/-- A row of the order_items table. -/
structure OrderItemRow where
  order_id : Int
  product_id : Int
  quantity : Int
  line_total : Int
deriving DecidableEq

/-- The relational store: the three tables plus the orders-id sequence. -/
structure Store where
  products : List Product
  orders : List OrderRow
  order_items : List OrderItemRow
  next_order_id : Int
deriving DecidableEq

/-- Pydantic model OrderItemIn (main.py lines 12-14): product_id and
quantity are plain ints, no positivity constraint. -/
structure OrderItemIn where
  product_id : Int
  quantity : Int
deriving DecidableEq

/-- Pydantic model OrderIn / PaymentOrderIn payload fields (main.py
lines 17-22 and 41-46): both have the same shape. -/
structure OrderIn where
  customer_name : String
  phone : String
  address : String
  note : Option String
  items : List OrderItemIn
deriving DecidableEq

/-- Python str.strip on a character list: drop leading and trailing
whitespace. -/
def stripChars (cs : List Char) : List Char :=
  ((cs.dropWhile Char.isWhitespace).reverse.dropWhile Char.isWhitespace).reverse

/-- Python str.strip (restricted to ASCII whitespace). -/
def pystrip (t : String) : String :=
  String.mk (stripChars t.toList)

/-- Python str.isdigit: true iff the string is nonempty and every character
is a digit (restricted here to ASCII decimal digits). -/
def str_isdigit (t : String) : Bool :=
  !(t.toList.isEmpty) && t.toList.all Char.isDigit

/-- The inline phone check shared by create_order (main.py lines 165-167)
and create_payment_order (lines 101-103):
len(cleaned) == 10 and cleaned.isdigit() on the stripped phone. -/
def phone_ok (phone : String) : Bool :=
  ((pystrip phone).length == 10) && str_isdigit (pystrip phone)

/-- Validator validate_customer_name (main.py lines 24-31). -/
def validate_customer_name (v : String) : Except String String :=
  let name := pystrip v
  if name.length < 2 then Except.error "Name must be at least 2 characters"
  else if !(name.toList.all (fun ch => ch.isAlpha || ch.isWhitespace)) then
    Except.error "Name can only contain letters and spaces"
  else Except.ok name

/-- Validator validate_address (main.py lines 33-38). -/
def validate_address (v : String) : Except String String :=
  let addr := pystrip v
  if addr == "" then Except.error "Address cannot be empty"
  else Except.ok addr

/-- SELECT price FROM products WHERE id = pid, fetchone: the first matching
row, if any. -/
def findProduct (s : Store) (pid : Int) : Option Product :=
  s.products.find? (fun p => p.id == pid)

/-- The loop of create_order (main.py lines 183-200): for each cart item,
look up the product (raising ValueError naming the product_id if absent)
and build the order_items row with line_total = price * quantity.
Returns all rows to be inserted, or the error that aborts the
transaction. -/
def insertItems (s : Store) (oid : Int) : List OrderItemIn → Except String (List OrderItemRow)
  | [] => Except.ok []
  | item :: rest =>
    match findProduct s item.product_id with
    | none => Except.error ("Invalid product_id " ++ toString item.product_id)
    | some p =>
      match insertItems s oid rest with
      | Except.error e => Except.error e
      | Except.ok rows =>
        Except.ok ({ order_id := oid, product_id := item.product_id,
                     quantity := item.quantity,
                     line_total := p.price * item.quantity } :: rows)

/-- The first product_id in the cart that does not exist in the products
table, if any: the id named by the ValueError that create_order and
create_payment_order raise. -/
def firstInvalid (s : Store) : List OrderItemIn → Option Int
  | [] => none
  | item :: rest =>
    match findProduct s item.product_id with
    | none => some item.product_id
    | some _ => firstInvalid s rest

/-- Endpoint create_order, POST /api/orders (main.py lines 160-212).
Checks cart non-empty and phone format, then runs one transaction:
insert the orders row (id from the sequence), insert one order_items row
per cart line, commit; any failure rolls the whole transaction back and
returns the error string.  now is the server-assigned timestamp. -/
def create_order (s : Store) (now : Int) (order : OrderIn) : Store × Except String Int :=
  if order.items.isEmpty then (s, Except.error "Cart is empty")
  else if !(phone_ok order.phone) then
    (s, Except.error "Phone number must be exactly 10 digits")
  else
    let order_id := s.next_order_id
    match insertItems s order_id order.items with
    | Except.error e => (s, Except.error e)
    | Except.ok rows =>
      ({ products := s.products,
         orders := s.orders ++ [{ id := order_id,
                                  customer_name := order.customer_name,
                                  phone := pystrip order.phone,
                                  address := order.address,
                                  note := order.note,
                                  status := "pending",
                                  created_at := now }],
         order_items := s.order_items ++ rows,
         next_order_id := s.next_order_id + 1 },
       Except.ok order_id)

/-- The dict built in create_razorpay_order (payment_utils.py lines 18-27):
the request handed to the external gateway; amount is converted to paise
by multiplying by 100. -/
structure RazorpayRequest where
  amount : Int
  currency : String
  receipt : String
  payment_capture : Int
deriving DecidableEq

/-- payment_utils.py lines 18-27: the request dict for a given rupee amount
and receipt id. -/
def razorpayRequest (amount_in_rupees : Int) (receipt_id : String) : RazorpayRequest :=
  { amount := amount_in_rupees * 100, currency := "INR",
    receipt := receipt_id, payment_capture := 1 }

/-- create_razorpay_order (payment_utils.py lines 10-28).  clientConfigured
models whether both Razorpay keys are set (payment_utils.py lines 4-7);
the external client.order.create call is the gateway parameter, returning
the remote order id or failing. -/
def create_razorpay_order (clientConfigured : Bool)
    (gateway : RazorpayRequest → Except String String)
    (amount_in_rupees : Int) (receipt_id : String) : Except String String :=
  if !clientConfigured then Except.error "Razorpay keys not configured"
  else gateway (razorpayRequest amount_in_rupees receipt_id)

/-- The pricing loop of create_payment_order (main.py lines 117-128):
sum price * quantity over the cart, failing on the first product_id
absent from the products table. -/
def computeTotal (s : Store) : List OrderItemIn → Except String Int
  | [] => Except.ok 0
  | item :: rest =>
    match findProduct s item.product_id with
    | none => Except.error ("Invalid product_id " ++ toString item.product_id)
    | some p =>
      match computeTotal s rest with
      | Except.error e => Except.error e
      | Except.ok t => Except.ok (p.price * item.quantity + t)

/-- The success payload of create_payment_order (main.py lines 146-157):
the fields the claims are about. -/
structure PaymentSuccess where
  razorpay_order_id : String
  amount : Int
  phone : String
deriving DecidableEq

/-- Endpoint create_payment_order, POST /api/payment/order (main.py
lines 96-157).  Checks cart non-empty and phone format, re-runs the
OrderIn name/address validators (main.py lines 106-112), prices the cart
read-only, rejects a non-positive total, then asks the gateway for a
remote order.  Every branch returns the store unchanged: the endpoint
only ever issues SELECTs. -/
def create_payment_order (clientConfigured : Bool)
    (gateway : RazorpayRequest → Except String String)
    (s : Store) (payload : OrderIn) : Store × Except String PaymentSuccess :=
  if payload.items.isEmpty then (s, Except.error "Cart is empty")
  else if !(phone_ok payload.phone) then
    (s, Except.error "Phone number must be exactly 10 digits")
  else
    match validate_customer_name payload.customer_name with
    | Except.error e => (s, Except.error e)
    | Except.ok _ =>
      match validate_address payload.address with
      | Except.error e => (s, Except.error e)
      | Except.ok _ =>
        match computeTotal s payload.items with
        | Except.error e => (s, Except.error e)
        | Except.ok total_amount =>
          if total_amount ≤ 0 then
            (s, Except.error "Total amount must be greater than zero")
          else
            match create_razorpay_order clientConfigured gateway total_amount
                ("order_cart_" ++ pystrip payload.phone) with
            | Except.error e =>
              (s, Except.error ("Failed to create Razorpay order: " ++ e))
            | Except.ok rp_id =>
              (s, Except.ok { razorpay_order_id := rp_id,
                              amount := total_amount,
                              phone := pystrip payload.phone })

/-- Insert a into an already sorted list, given a boolean le relation:
used to model SQL ORDER BY. -/
def insertSorted {α : Type} (le : α → α → Bool) (a : α) : List α → List α
  | [] => [a]
  | b :: bs => if le a b then a :: b :: bs else b :: insertSorted le a bs

/-- Sort a list by a boolean le relation: the ordering applied by SQL
ORDER BY clauses. -/
def sortWith {α : Type} (le : α → α → Bool) : List α → List α
  | [] => []
  | a :: as => insertSorted le a (sortWith le as)

/-- One row of the GET /api/menu response (main.py lines 81-91). -/
structure MenuItem where
  id : Int
  name : String
  flavour : Option String
  pack_size : String
  price : Int
deriving DecidableEq

/-- Endpoint get_menu, GET /api/menu (main.py lines 65-93): active
products only, ordered by id. -/
def get_menu (s : Store) : List MenuItem :=
  (sortWith (fun a b => a.id ≤ b.id) (s.products.filter (fun p => p.is_active))).map
    (fun p => { id := p.id, name := p.name, flavour := p.flavour,
                pack_size := p.pack_size, price := p.price })

/-- The admin-gate outcome: either the endpoint's payload or HTTP 401. -/
inductive AdminResult (α : Type) where
  | ok : α → AdminResult α
  | unauthorized : AdminResult α
deriving DecidableEq

/-- The shared admin check (main.py lines 217, 287, 315): the request is
authorized iff the presented X-Admin-Key header (absent modelled as none)
equals the configured ADMIN_KEY. -/
def admin_authorized (x_admin_key : Option String) (admin_key : String) : Bool :=
  x_admin_key == some admin_key

/-- One nested item of the admin pending-orders listing (main.py
lines 270-277). -/
structure AdminOrderItemView where
  product_name : String
  flavour : Option String
  quantity : Int
  line_total : Int
deriving DecidableEq

/-- One order of the admin pending-orders listing (main.py lines 260-277). -/
structure AdminOrderView where
  order_id : Int
  customer_name : String
  phone : String
  address : String
  created_at : Int
  note : Option String
  items : List AdminOrderItemView
deriving DecidableEq

/-- The JOIN of order_items with products for one order (main.py
lines 236-238): items in insertion order, dropping items whose product is
missing (inner join). -/
def itemsViewOf (s : Store) (oid : Int) : List AdminOrderItemView :=
  (s.order_items.filter (fun i => i.order_id == oid)).filterMap
    (fun i => (findProduct s i.product_id).map
      (fun p => { product_name := p.name, flavour := p.flavour,
                  quantity := i.quantity, line_total := i.line_total }))

/-- Endpoint get_admin_orders, GET /api/admin/orders (main.py
lines 215-279): after the admin check, pending orders with their items,
ordered by created_at descending then order id. -/
def get_admin_orders (admin_key : String) (s : Store) (x_admin_key : Option String) :
    AdminResult (List AdminOrderView) :=
  if !(admin_authorized x_admin_key admin_key) then AdminResult.unauthorized
  else
    AdminResult.ok
      ((sortWith
          (fun a b => b.created_at < a.created_at ||
            (a.created_at == b.created_at && a.id ≤ b.id))
          (s.orders.filter (fun o => o.status == "pending"))).map
        (fun o => { order_id := o.id, customer_name := o.customer_name,
                    phone := o.phone, address := o.address,
                    created_at := o.created_at, note := o.note,
                    items := itemsViewOf s o.id }))

/-- Endpoint complete_order, POST /api/admin/orders/{order_id}/complete
(main.py lines 282-306): after the admin check, UPDATE orders SET
status = completed WHERE id = order_id, affecting zero or more rows, then
report success. -/
def complete_order (admin_key : String) (s : Store) (order_id : Int)
    (x_admin_key : Option String) : Store × AdminResult String :=
  if !(admin_authorized x_admin_key admin_key) then (s, AdminResult.unauthorized)
  else
    ({ s with orders := (s.orders.map
        (fun o => if o.id == order_id then { o with status := "completed" } else o)) },
     AdminResult.ok ("Order " ++ toString order_id ++ " marked as completed"))

/-- Deduplicate a list keeping first occurrences: models SQL GROUP BY key
collection. -/
def dedupAux {α : Type} [BEq α] (seen : List α) : List α → List α
  | [] => []
  | a :: as => if seen.contains a then dedupAux seen as
               else a :: dedupAux (a :: seen) as

/-- Deduplicate keeping first occurrences. -/
def dedupKeys {α : Type} [BEq α] (l : List α) : List α :=
  dedupAux [] l

/-- The optional date-range filter of get_admin_analytics (main.py
lines 326-340): created_at::date >= from_date AND created_at::date <=
to_date, each bound applied only when present. -/
def inRange (from_date to_date : Option Int) (d : Int) : Bool :=
  (match from_date with | some f => decide (f ≤ d) | none => true) &&
  (match to_date with | some t => decide (d ≤ t) | none => true)

/-- The summary block of the analytics response (main.py lines 342-353). -/
structure AnalyticsSummary where
  total_orders : Int
  total_revenue : Int
deriving DecidableEq

/-- One weekly bucket of the analytics response (main.py lines 355-370). -/
structure WeekBucket where
  week_start : Int
  order_count : Int
  revenue : Int
deriving DecidableEq

/-- One top-product row of the analytics response (main.py
lines 372-389). -/
structure TopProductRow where
  product_name : String
  flavour : Option String
  total_quantity : Int
  total_revenue : Int
deriving DecidableEq

/-- The full analytics response (main.py lines 415-422). -/
structure AnalyticsResult where
  summary : AnalyticsSummary
  orders_per_week : List WeekBucket
  top_products : List TopProductRow
deriving DecidableEq

/-- SUM(oi.line_total) over the items of one order (the LEFT JOIN in the
analytics queries), with COALESCE to 0 when the order has no items. -/
def orderRevenue (s : Store) (oid : Int) : Int :=
  ((s.order_items.filter (fun i => i.order_id == oid)).map
    (fun i => i.line_total)).sum

/-- date_trunc of week for the weekly buckets, as a fixed 7-day-block
convention on the integer day number. -/
def weekStart (d : Int) : Int :=
  d - d % 7

/-- Endpoint get_admin_analytics, GET /api/admin/analytics (main.py
lines 309-422): after the admin check, the order/revenue summary, the
newest-first weekly buckets capped at 8, and the top products by total
quantity capped at 10, all over the optional inclusive date range. -/
def get_admin_analytics (admin_key : String) (s : Store)
    (from_date to_date : Option Int) (x_admin_key : Option String) :
    AdminResult AnalyticsResult :=
  if !(admin_authorized x_admin_key admin_key) then AdminResult.unauthorized
  else
    let matching := s.orders.filter (fun o => inRange from_date to_date o.created_at)
    let weekKeys := dedupKeys (matching.map (fun o => weekStart o.created_at))
    let productLines := s.order_items.filterMap (fun i =>
      match s.orders.find? (fun o => o.id == i.order_id) with
      | none => none
      | some o =>
        if inRange from_date to_date o.created_at then
          (findProduct s i.product_id).map (fun p => (p.name, p.flavour, i))
        else none)
    let productKeys := dedupKeys (productLines.map (fun l => (l.1, l.2.1)))
    AdminResult.ok
      { summary := { total_orders := Int.ofNat matching.length,
                     total_revenue := (matching.map (fun o => orderRevenue s o.id)).sum },
        orders_per_week :=
          ((sortWith (fun a b => b ≤ a) weekKeys).take 8).map (fun w =>
            let bucket := matching.filter (fun o => weekStart o.created_at == w)
            { week_start := w,
              order_count := Int.ofNat bucket.length,
              revenue := (bucket.map (fun o => orderRevenue s o.id)).sum }),
        top_products :=
          ((sortWith (fun a b => b.total_quantity ≤ a.total_quantity)
            (productKeys.map (fun k =>
              let lines := productLines.filter (fun l => (l.1, l.2.1) == k)
              { product_name := k.1, flavour := k.2,
                total_quantity := (lines.map (fun l => l.2.2.quantity)).sum,
                total_revenue := (lines.map (fun l => l.2.2.line_total)).sum }))).take 10) }

/-- Python truthiness of an optional string configuration value:
None and the empty string are falsy (config.py via os.getenv). -/
def pytruthy : Option String → Bool
  | none => false
  | some s => !(s == "")

/-- The email-related configuration values (config.py lines 18-23). -/
structure EmailConfig where
  EMAIL_HOST : Option String
  EMAIL_PORT : Int
  EMAIL_USER : Option String
  EMAIL_PASS : Option String
  EMAIL_FROM : Option String
  EMAIL_TO : Option String
deriving DecidableEq

/-- The configuration guard of send_order_email (email_utils.py line 79):
all five of host, user, password, sender, recipient must be truthy. -/
def email_configured (cfg : EmailConfig) : Bool :=
  pytruthy cfg.EMAIL_HOST && pytruthy cfg.EMAIL_USER && pytruthy cfg.EMAIL_PASS &&
    pytruthy cfg.EMAIL_FROM && pytruthy cfg.EMAIL_TO

/-- build_order_email_body (email_utils.py lines 14-72): the plain-text
summary, or the not-found sentence when the order id is absent.  The
timestamp formatting stands in for strftime. -/
def build_order_email_body (s : Store) (order_id : Int) : String :=
  match s.orders.find? (fun o => o.id == order_id) with
  | none => "Order " ++ toString order_id ++ " not found."
  | some o =>
    let created_str := toString o.created_at
    let items_rows := (s.order_items.filter (fun i => i.order_id == order_id)).filterMap
      (fun i => (findProduct s i.product_id).map
        (fun p => (p.name, p.flavour, i.quantity, i.line_total)))
    let header := ["New order #" ++ toString order_id,
                   "Time: " ++ created_str,
                   "Customer: " ++ o.customer_name,
                   "Phone: " ++ o.phone,
                   "Address: " ++ o.address]
    let noteLines := match o.note with
      | some n => if !(n == "") then ["Note: " ++ n] else []
      | none => []
    let itemLines := items_rows.map (fun r =>
      let flavour_str := match r.2.1 with
        | some fl => if !(fl == "") then " (" ++ fl ++ ")" else ""
        | none => ""
      "- " ++ r.1 ++ flavour_str ++ " x " ++ toString r.2.2.1 ++ " = ₹" ++ toString r.2.2.2)
    let total := (items_rows.map (fun r => r.2.2.2)).sum
    String.intercalate "\n"
      (header ++ noteLines ++ ["", "Items:"] ++ itemLines ++ ["", "Total: ₹" ++ toString total])

/-- The message handed to the SMTP transport (email_utils.py
lines 86-94). -/
structure EmailMessage where
  subject : String
  msg_from : String
  msg_to : String
  body : String
deriving DecidableEq

/-- send_order_email (email_utils.py lines 75-94): none when the
configuration guard fails (no-op), otherwise the message delivered via
SMTP. -/
def send_order_email (cfg : EmailConfig) (s : Store) (order_id : Int) :
    Option EmailMessage :=
  if !(email_configured cfg) then none
  else
    some { subject := "New order #" ++ toString order_id ++ " – Cupcakes & Crumbs Co",
           msg_from := cfg.EMAIL_FROM.getD "",
           msg_to := cfg.EMAIL_TO.getD "",
           body := build_order_email_body s order_id }

deriving instance DecidableEq for Except

/-! Helper lemmas about the embedded operations. -/

theorem mem_insertSorted {α : Type} (le : α → α → Bool) (a x : α) (l : List α) :
    x ∈ insertSorted le a l ↔ x = a ∨ x ∈ l := by
  induction l with
  | nil => simp [insertSorted]
  | cons b bs ih =>
    simp only [insertSorted]
    split
    · simp [List.mem_cons]
    · simp only [List.mem_cons, ih]
      tauto

theorem mem_sortWith {α : Type} (le : α → α → Bool) (x : α) (l : List α) :
    x ∈ sortWith le l ↔ x ∈ l := by
  induction l with
  | nil => simp [sortWith]
  | cons a as ih => simp [sortWith, mem_insertSorted, ih]

theorem insertItems_error (s : Store) (oid : Int) (items : List OrderItemIn) (pid : Int)
    (h : firstInvalid s items = some pid) :
    insertItems s oid items = Except.error ("Invalid product_id " ++ toString pid) := by
  induction items with
  | nil => simp [firstInvalid] at h
  | cons item rest ih =>
    unfold firstInvalid at h
    unfold insertItems
    cases hf : findProduct s item.product_id with
    | none =>
      rw [hf] at h
      simp only [Option.some.injEq] at h
      subst h
      rfl
    | some p =>
      rw [hf] at h
      rw [ih h]

theorem insertItems_ok (s : Store) (oid : Int) (items : List OrderItemIn)
    (h : firstInvalid s items = none) :
    ∃ rows, insertItems s oid items = Except.ok rows := by
  induction items with
  | nil => exact ⟨[], rfl⟩
  | cons item rest ih =>
    unfold firstInvalid at h
    unfold insertItems
    cases hf : findProduct s item.product_id with
    | none => rw [hf] at h; cases h
    | some p =>
      rw [hf] at h
      obtain ⟨rows, hrows⟩ := ih h
      rw [hrows]
      exact ⟨_, rfl⟩

theorem insertItems_mem (s : Store) (oid : Int) (items : List OrderItemIn)
    (rows : List OrderItemRow) (item : OrderItemIn) (p : Product)
    (hok : insertItems s oid items = Except.ok rows)
    (hmem : item ∈ items)
    (hfind : findProduct s item.product_id = some p) :
    ({ order_id := oid, product_id := item.product_id, quantity := item.quantity,
       line_total := p.price * item.quantity } : OrderItemRow) ∈ rows := by
  induction items generalizing rows with
  | nil => simp at hmem
  | cons a as ih =>
    unfold insertItems at hok
    cases hf : findProduct s a.product_id with
    | none => rw [hf] at hok; cases hok
    | some q =>
      rw [hf] at hok
      cases hr : insertItems s oid as with
      | error e => rw [hr] at hok; cases hok
      | ok rs =>
        rw [hr] at hok
        simp only [Except.ok.injEq] at hok
        subst hok
        rcases List.mem_cons.mp hmem with heq | hmem'
        · subst heq
          rw [hfind] at hf
          simp only [Option.some.injEq] at hf
          subst hf
          exact List.mem_cons_self _ _
        · exact List.mem_cons_of_mem _ (ih rs hr hmem')

theorem create_order_commit (s : Store) (now : Int) (order : OrderIn)
    (rows : List OrderItemRow)
    (hne : order.items ≠ [])
    (hphone : phone_ok order.phone = true)
    (hok : insertItems s s.next_order_id order.items = Except.ok rows) :
    create_order s now order =
      ({ products := s.products,
         orders := s.orders ++ [{ id := s.next_order_id,
                                  customer_name := order.customer_name,
                                  phone := pystrip order.phone,
                                  address := order.address,
                                  note := order.note,
                                  status := "pending",
                                  created_at := now }],
         order_items := s.order_items ++ rows,
         next_order_id := s.next_order_id + 1 },
       Except.ok s.next_order_id) := by
  have h1 : order.items.isEmpty = false := by
    cases h : order.items with
    | nil => exact absurd h hne
    | cons a as => rfl
  unfold create_order
  simp [h1, hphone, hok]

/-! The claims. -/

/-- Claim C1: for every cart containing at least one product id absent from
the products table, create_order persists zero rows (the store is
unchanged) and, when the request reaches the transaction (valid phone),
returns an error message naming the offending product id. -/
theorem claim_C1 (s : Store) (now : Int) (order : OrderIn) (pid : Int)
    (h : firstInvalid s order.items = some pid) :
    (create_order s now order).1 = s ∧
    (phone_ok order.phone = true →
      (create_order s now order).2 =
        Except.error ("Invalid product_id " ++ toString pid)) := by
  have hne : order.items.isEmpty = false := by
    cases hitems : order.items with
    | nil => rw [hitems] at h; simp [firstInvalid] at h
    | cons a as => rfl
  have herr := insertItems_error s s.next_order_id order.items pid h
  by_cases hp : phone_ok order.phone
  · unfold create_order
    simp [hne, hp, herr]
  · unfold create_order
    simp [hne, hp]

/-- Witness for claim_C1 at a concrete store with no products and a cart
naming product 42. -/
theorem claim_C1_witness :
    (create_order ⟨[], [], [], 1⟩ 0
        ⟨"Jane Doe", "1234567890", "12 Baker St", none, [⟨42, 1⟩]⟩).1 = ⟨[], [], [], 1⟩ ∧
    (create_order ⟨[], [], [], 1⟩ 0
        ⟨"Jane Doe", "1234567890", "12 Baker St", none, [⟨42, 1⟩]⟩).2 =
      Except.error ("Invalid product_id " ++ toString (42 : Int)) := by
  have h := claim_C1 ⟨[], [], [], 1⟩ 0
    ⟨"Jane Doe", "1234567890", "12 Baker St", none, [⟨42, 1⟩]⟩ 42 (by rfl)
  exact ⟨h.1, h.2 (by decide)⟩

/-- Counterexample to claim C2 as stated: with product 1 priced 5 in the
store, a cart item with quantity -1 does not make order creation fail;
the order is committed and an order_items row with non-positive quantity
is written. -/
theorem claim_C2_counterexample :
    (create_order ⟨[⟨1, "Cupcake", none, "6", 5, true⟩], [], [], 1⟩ 0
        ⟨"Jane Doe", "1234567890", "12 Baker St", none, [⟨1, -1⟩]⟩).2 = Except.ok 1 ∧
    (⟨1, 1, -1, -5⟩ : OrderItemRow) ∈
      (create_order ⟨[⟨1, "Cupcake", none, "6", 5, true⟩], [], [], 1⟩ 0
        ⟨"Jane Doe", "1234567890", "12 Baker St", none, [⟨1, -1⟩]⟩).1.order_items :=
  ⟨by rfl, by decide⟩

/-- Claim C2 as amended: create_order performs no quantity validation.
For a cart item with quantity <= 0 whose product id exists (and a valid
phone), order creation succeeds and persists that item's row with
line_total = price * quantity. -/
theorem claim_C2 (s : Store) (now : Int) (order : OrderIn)
    (item : OrderItemIn) (p : Product)
    (_hq : item.quantity ≤ 0)
    (hphone : phone_ok order.phone = true)
    (hvalid : firstInvalid s order.items = none)
    (hmem : item ∈ order.items)
    (hfind : findProduct s item.product_id = some p) :
    (create_order s now order).2 = Except.ok s.next_order_id ∧
    ({ order_id := s.next_order_id, product_id := item.product_id,
       quantity := item.quantity, line_total := p.price * item.quantity } : OrderItemRow)
      ∈ (create_order s now order).1.order_items := by
  have hne : order.items ≠ [] := by
    intro hnil; rw [hnil] at hmem; simp at hmem
  obtain ⟨rows, hrows⟩ := insertItems_ok s s.next_order_id order.items hvalid
  rw [create_order_commit s now order rows hne hphone hrows]
  exact ⟨rfl, List.mem_append.mpr (Or.inr
    (insertItems_mem s s.next_order_id order.items rows item p hrows hmem hfind))⟩

/-- Witness for claim_C2 at the concrete store of the counterexample. -/
theorem claim_C2_witness :
    (create_order ⟨[⟨1, "Cupcake", none, "6", 5, true⟩], [], [], 1⟩ 0
        ⟨"Jane Doe", "1234567890", "12 Baker St", none, [⟨1, -1⟩]⟩).2 = Except.ok 1 ∧
    ({ order_id := 1, product_id := 1, quantity := -1,
       line_total := (5 : Int) * (-1 : Int) } : OrderItemRow) ∈
      (create_order ⟨[⟨1, "Cupcake", none, "6", 5, true⟩], [], [], 1⟩ 0
        ⟨"Jane Doe", "1234567890", "12 Baker St", none, [⟨1, -1⟩]⟩).1.order_items :=
  claim_C2 ⟨[⟨1, "Cupcake", none, "6", 5, true⟩], [], [], 1⟩ 0
    ⟨"Jane Doe", "1234567890", "12 Baker St", none, [⟨1, -1⟩]⟩
    ⟨1, -1⟩ ⟨1, "Cupcake", none, "6", 5, true⟩
    (by decide) (by decide) (by rfl) (by decide) (by rfl)

/-- Counterexample to claim C3 as stated: with product 1 priced 0 (price
is not validated positive), a cart of quantity 2 has total 0 <= 0, yet
create_order succeeds and persists the order and its item. -/
theorem claim_C3_counterexample :
    computeTotal ⟨[⟨1, "Freebie", none, "1", 0, true⟩], [], [], 1⟩ [⟨1, 2⟩] = Except.ok 0 ∧
    (create_order ⟨[⟨1, "Freebie", none, "1", 0, true⟩], [], [], 1⟩ 0
        ⟨"Jane Doe", "1234567890", "12 Baker St", none, [⟨1, 2⟩]⟩).2 = Except.ok 1 ∧
    (⟨1, 1, 2, 0⟩ : OrderItemRow) ∈
      (create_order ⟨[⟨1, "Freebie", none, "1", 0, true⟩], [], [], 1⟩ 0
        ⟨"Jane Doe", "1234567890", "12 Baker St", none, [⟨1, 2⟩]⟩).1.order_items :=
  ⟨by decide, by rfl, by decide⟩

/-- Claim C3 as amended: the total <= 0 rejection exists only on the
payment-intent path.  create_payment_order rejects any cart whose
computed total is <= 0 (given the earlier checks pass) with the error
"Total amount must be greater than zero", leaving the store unchanged;
create_order performs no such check (see the counterexample). -/
theorem claim_C3 (clientConfigured : Bool)
    (gateway : RazorpayRequest → Except String String) (s : Store) (payload : OrderIn)
    (t : Int)
    (hne : payload.items ≠ [])
    (hphone : phone_ok payload.phone = true)
    (hname : ∃ n, validate_customer_name payload.customer_name = Except.ok n)
    (haddr : ∃ a, validate_address payload.address = Except.ok a)
    (htot : computeTotal s payload.items = Except.ok t)
    (hle : t ≤ 0) :
    create_payment_order clientConfigured gateway s payload =
      (s, Except.error "Total amount must be greater than zero") := by
  have h1 : payload.items.isEmpty = false := by
    cases h : payload.items with
    | nil => exact absurd h hne
    | cons a as => rfl
  obtain ⟨n, hn⟩ := hname
  obtain ⟨a, ha⟩ := haddr
  unfold create_payment_order
  simp [h1, hphone, hn, ha, htot, hle]

/-- Witness for claim_C3 at the concrete zero-price store. -/
theorem claim_C3_witness :
    create_payment_order true (fun _ => (Except.ok "rp_1" : Except String String))
        ⟨[⟨1, "Freebie", none, "1", 0, true⟩], [], [], 1⟩
        ⟨"Jane Doe", "1234567890", "12 Baker St", none, [⟨1, 2⟩]⟩ =
      (⟨[⟨1, "Freebie", none, "1", 0, true⟩], [], [], 1⟩,
       Except.error "Total amount must be greater than zero") :=
  claim_C3 true (fun _ => (Except.ok "rp_1" : Except String String))
    ⟨[⟨1, "Freebie", none, "1", 0, true⟩], [], [], 1⟩
    ⟨"Jane Doe", "1234567890", "12 Baker St", none, [⟨1, 2⟩]⟩ 0
    (by decide) (by decide) ⟨pystrip "Jane Doe", by rfl⟩ ⟨pystrip "12 Baker St", by rfl⟩
    (by decide) (by decide)

/-- Counterexample to claim C4 as stated: with complete delivery
configuration and an empty store, send_order_email for the nonexistent
order 7 is not a no-op — an email is still delivered, whose body reports
the order as not found. -/
theorem claim_C4_counterexample :
    send_order_email ⟨some "smtp.example.com", 587, some "u", some "p",
        some "from@example.com", some "to@example.com"⟩ ⟨[], [], [], 1⟩ 7 ≠ none ∧
    (send_order_email ⟨some "smtp.example.com", 587, some "u", some "p",
        some "from@example.com", some "to@example.com"⟩ ⟨[], [], [], 1⟩ 7).map
      (fun m => m.body) = some "Order 7 not found." :=
  ⟨by decide, by rfl⟩

/-- Claim C4 as amended: send_order_email is a complete no-op whenever any
required delivery configuration value (host, user, password, sender,
recipient) is absent; when the configuration is complete but the order id
does not exist in the store, it is not a no-op: it still delivers an
email whose body states that the order was not found (and raises no
error either way). -/
theorem claim_C4 (cfg : EmailConfig) (s : Store) (order_id : Int) :
    (email_configured cfg = false → send_order_email cfg s order_id = none) ∧
    (email_configured cfg = true →
      s.orders.find? (fun o => o.id == order_id) = none →
      send_order_email cfg s order_id =
        some { subject := "New order #" ++ toString order_id ++ " – Cupcakes & Crumbs Co",
               msg_from := cfg.EMAIL_FROM.getD "",
               msg_to := cfg.EMAIL_TO.getD "",
               body := "Order " ++ toString order_id ++ " not found." }) := by
  constructor
  · intro h
    unfold send_order_email
    simp [h]
  · intro h hfind
    unfold send_order_email build_order_email_body
    simp [h, hfind]

/-- Witness for claim_C4: absent host is a no-op; full configuration with
an empty store still yields a delivered message. -/
theorem claim_C4_witness :
    send_order_email ⟨none, 587, some "u", some "p", some "f", some "t"⟩
        ⟨[], [], [], 1⟩ 3 = none ∧
    send_order_email ⟨some "h", 587, some "u", some "p", some "f", some "t"⟩
        ⟨[], [], [], 1⟩ 3 =
      some ⟨"New order #3 – Cupcakes & Crumbs Co", "f", "t", "Order 3 not found."⟩ :=
  ⟨(claim_C4 ⟨none, 587, some "u", some "p", some "f", some "t"⟩
      ⟨[], [], [], 1⟩ 3).1 (by decide),
   (claim_C4 ⟨some "h", 587, some "u", some "p", some "f", some "t"⟩
      ⟨[], [], [], 1⟩ 3).2 (by decide) (by rfl)⟩

/-- Claim C5: phone validation on both the order-placement and
payment-intent paths accepts a phone iff, after stripping surrounding
whitespace, it has exactly 10 characters, all decimal digits; the four
documented examples behave as specified, and a rejected phone makes both
endpoints return the phone error with the store unchanged. -/
theorem claim_C5 (p : String) (s : Store) (now : Int) (order : OrderIn)
    (clientConfigured : Bool) (gateway : RazorpayRequest → Except String String)
    (payload : OrderIn) :
    (phone_ok p = true ↔
      ((pystrip p).toList.length = 10 ∧ ∀ c ∈ (pystrip p).toList, c.isDigit = true)) ∧
    phone_ok "1234567890" = true ∧
    phone_ok "123" = false ∧
    phone_ok "12345678901" = false ∧
    phone_ok "123456789a" = false ∧
    (order.items ≠ [] → phone_ok order.phone = false →
      create_order s now order = (s, Except.error "Phone number must be exactly 10 digits")) ∧
    (payload.items ≠ [] → phone_ok payload.phone = false →
      create_payment_order clientConfigured gateway s payload =
        (s, Except.error "Phone number must be exactly 10 digits")) := by
  refine ⟨?_, by decide, by decide, by decide, by decide, ?_, ?_⟩
  · have hlen : (pystrip p).length = (pystrip p).toList.length := rfl
    unfold phone_ok str_isdigit
    constructor
    · intro h
      simp only [Bool.and_eq_true, beq_iff_eq, List.all_eq_true] at h
      exact ⟨hlen ▸ h.1, h.2.2⟩
    · rintro ⟨h10, hdig⟩
      have hne : (pystrip p).toList.isEmpty = false := by
        cases hl : (pystrip p).toList with
        | nil => rw [hl] at h10; cases h10
        | cons c cs => rfl
      simp only [Bool.and_eq_true, beq_iff_eq, List.all_eq_true, hne]
      exact ⟨hlen.trans h10, rfl, hdig⟩
  · intro hne hp
    have h1 : order.items.isEmpty = false := by
      cases h : order.items with
      | nil => exact absurd h hne
      | cons a as => rfl
    unfold create_order
    simp [h1, hp]
  · intro hne hp
    have h1 : payload.items.isEmpty = false := by
      cases h : payload.items with
      | nil => exact absurd h hne
      | cons a as => rfl
    unfold create_payment_order
    simp [h1, hp]

/-- Witness for claim_C5: the short phone "123" is rejected by
create_order on a concrete store. -/
theorem claim_C5_witness :
    create_order ⟨[], [], [], 1⟩ 0 ⟨"Jane Doe", "123", "12 Baker St", none, [⟨1, 1⟩]⟩ =
      (⟨[], [], [], 1⟩, Except.error "Phone number must be exactly 10 digits") :=
  (claim_C5 "x" ⟨[], [], [], 1⟩ 0 ⟨"Jane Doe", "123", "12 Baker St", none, [⟨1, 1⟩]⟩
      true (fun _ => (Except.ok "rp" : Except String String))
      ⟨"Jane Doe", "123", "12 Baker St", none, [⟨1, 1⟩]⟩).2.2.2.2.2.1
    (by decide) (by decide)

/-- Claim C6: each admin endpoint (pending-orders listing, order
completion, analytics) is authorized iff the presented key equals the
configured admin secret — a pure equality on the pair — and any mismatch
(including an absent key) yields unauthorized with the store untouched. -/
theorem claim_C6 (admin_key : String) (s : Store) (x_admin_key : Option String)
    (oid : Int) (from_date to_date : Option Int) :
    (get_admin_orders admin_key s x_admin_key ≠ AdminResult.unauthorized ↔
      x_admin_key = some admin_key) ∧
    ((complete_order admin_key s oid x_admin_key).2 ≠ AdminResult.unauthorized ↔
      x_admin_key = some admin_key) ∧
    (get_admin_analytics admin_key s from_date to_date x_admin_key ≠
        AdminResult.unauthorized ↔ x_admin_key = some admin_key) ∧
    (x_admin_key ≠ some admin_key →
      (complete_order admin_key s oid x_admin_key).1 = s) := by
  by_cases hx : x_admin_key = some admin_key
  · subst hx
    unfold get_admin_orders complete_order get_admin_analytics
    simp [admin_authorized]
  · have hauth : admin_authorized x_admin_key admin_key = false := by
      simp [admin_authorized, hx]
    unfold get_admin_orders complete_order get_admin_analytics
    simp [hauth, hx]

/-- Witness for claim_C6: a wrong key on complete_order leaves a concrete
store unchanged. -/
theorem claim_C6_witness :
    (complete_order "secret"
        ⟨[], [⟨1, "Jane Doe", "1234567890", "12 Baker St", none, "pending", 0⟩], [], 2⟩
        1 (some "wrong")).1 =
      ⟨[], [⟨1, "Jane Doe", "1234567890", "12 Baker St", none, "pending", 0⟩], [], 2⟩ :=
  (claim_C6 "secret"
      ⟨[], [⟨1, "Jane Doe", "1234567890", "12 Baker St", none, "pending", 0⟩], [], 2⟩
      (some "wrong") 1 none none).2.2.2 (by decide)

/-- complete_order with the correct key: the UPDATE ... WHERE id = oid
applied to the orders table, plus the success message. -/
theorem complete_order_auth (admin_key : String) (s : Store) (oid : Int) :
    complete_order admin_key s oid (some admin_key) =
      ({ s with orders := (s.orders.map
          (fun o => if o.id == oid then { o with status := "completed" } else o)) },
       AdminResult.ok ("Order " ++ toString oid ++ " marked as completed")) := by
  unfold complete_order
  simp [admin_authorized]

/-- Applying the completion UPDATE twice is the same as applying it
once. -/
theorem map_complete_idem (oid : Int) (l : List OrderRow) :
    (l.map (fun o => if o.id == oid then { o with status := "completed" } else o)).map
      (fun o => if o.id == oid then { o with status := "completed" } else o) =
    l.map (fun o => if o.id == oid then { o with status := "completed" } else o) := by
  rw [List.map_map]
  refine List.map_congr_left (fun o _ => ?_)
  by_cases h : o.id == oid
  · simp [Function.comp, h]
  · simp [Function.comp, h]

/-- Claim C7: complete_order (with the correct admin key) sets status to
completed unconditionally: it reports success on every id, both calls of
a repeated completion succeed, the second call does not change the store
further, every row with the target id ends up completed, and a
nonexistent id changes no rows while still reporting success. -/
theorem claim_C7 (admin_key : String) (s : Store) (oid : Int) :
    ((complete_order admin_key s oid (some admin_key)).2 =
      AdminResult.ok ("Order " ++ toString oid ++ " marked as completed")) ∧
    ((complete_order admin_key (complete_order admin_key s oid (some admin_key)).1
        oid (some admin_key)).2 =
      AdminResult.ok ("Order " ++ toString oid ++ " marked as completed")) ∧
    ((complete_order admin_key (complete_order admin_key s oid (some admin_key)).1
        oid (some admin_key)).1 =
      (complete_order admin_key s oid (some admin_key)).1) ∧
    (∀ o ∈ (complete_order admin_key s oid (some admin_key)).1.orders,
      o.id = oid → o.status = "completed") ∧
    ((∀ o ∈ s.orders, o.id ≠ oid) →
      (complete_order admin_key s oid (some admin_key)).1 = s) := by
  rw [complete_order_auth, complete_order_auth]
  refine ⟨rfl, rfl, ?_, ?_, ?_⟩
  · rw [map_complete_idem]
  · intro o hmem hid
    obtain ⟨o', hmem', heq⟩ := List.mem_map.mp hmem
    by_cases h : o'.id == oid
    · rw [if_pos h] at heq
      rw [← heq]
    · rw [if_neg h] at heq
      subst heq
      exact absurd (beq_iff_eq.mpr hid) h
  · intro hno
    have : s.orders.map
        (fun o => if o.id == oid then { o with status := "completed" } else o) =
        s.orders := by
      have h1 : s.orders.map
          (fun o => if o.id == oid then { o with status := "completed" } else o) =
          s.orders.map id :=
        List.map_congr_left (fun o ho => by simp [hno o ho])
      rw [h1, List.map_id]
    rw [this]

/-- Witness for claim_C7: completing the absent order 9 leaves a concrete
store unchanged while reporting success. -/
theorem claim_C7_witness :
    (complete_order "secret"
        ⟨[], [⟨1, "Jane Doe", "1234567890", "12 Baker St", none, "pending", 0⟩], [], 2⟩
        9 (some "secret")).1 =
      ⟨[], [⟨1, "Jane Doe", "1234567890", "12 Baker St", none, "pending", 0⟩], [], 2⟩ ∧
    (complete_order "secret"
        ⟨[], [⟨1, "Jane Doe", "1234567890", "12 Baker St", none, "pending", 0⟩], [], 2⟩
        9 (some "secret")).2 =
      AdminResult.ok ("Order " ++ toString (9 : Int) ++ " marked as completed") :=
  ⟨(claim_C7 "secret"
      ⟨[], [⟨1, "Jane Doe", "1234567890", "12 Baker St", none, "pending", 0⟩], [], 2⟩
      9).2.2.2.2 (by decide),
   (claim_C7 "secret"
      ⟨[], [⟨1, "Jane Doe", "1234567890", "12 Baker St", none, "pending", 0⟩], [], 2⟩
      9).1⟩

/-- Claim C8: create_payment_order never modifies the store: for every
input, valid or invalid, the products, orders and order_items tables are
identical before and after the call. -/
theorem claim_C8 (clientConfigured : Bool)
    (gateway : RazorpayRequest → Except String String) (s : Store) (payload : OrderIn) :
    (create_payment_order clientConfigured gateway s payload).1.products = s.products ∧
    (create_payment_order clientConfigured gateway s payload).1.orders = s.orders ∧
    (create_payment_order clientConfigured gateway s payload).1.order_items =
      s.order_items := by
  have h : (create_payment_order clientConfigured gateway s payload).1 = s := by
    unfold create_payment_order
    repeat' split
    all_goals rfl
  rw [h]
  exact ⟨rfl, rfl, rfl⟩

/-- Claim C9: whenever create_payment_order succeeds with total amount
res.amount, the request passed to the external gateway carried exactly
100 * res.amount (the total converted to paise by exact integer
multiplication) with the receipt derived from the normalized phone. -/
theorem claim_C9 (clientConfigured : Bool)
    (gateway : RazorpayRequest → Except String String)
    (s s2 : Store) (payload : OrderIn) (res : PaymentSuccess)
    (h : create_payment_order clientConfigured gateway s payload = (s2, Except.ok res)) :
    gateway (razorpayRequest res.amount ("order_cart_" ++ pystrip payload.phone)) =
      Except.ok res.razorpay_order_id ∧
    (razorpayRequest res.amount ("order_cart_" ++ pystrip payload.phone)).amount =
      100 * res.amount := by
  unfold create_payment_order at h
  split at h
  · simp at h
  · split at h
    · simp at h
    · split at h
      · simp at h
      · split at h
        · simp at h
        · split at h
          · simp at h
          · split at h
            · simp at h
            · split at h
              · simp at h
              · rename_i rp_id heq
                simp only [Prod.mk.injEq, Except.ok.injEq] at h
                obtain ⟨hs, hres⟩ := h
                subst hres
                unfold create_razorpay_order at heq
                split at heq
                · simp at heq
                · exact ⟨heq, Int.mul_comm _ 100⟩

/-- Witness for claim_C9 at a concrete gateway, store and cart with
total 6. -/
theorem claim_C9_witness :
    (fun (_ : RazorpayRequest) => (Except.ok "rp_1" : Except String String))
        (razorpayRequest 6 ("order_cart_" ++ pystrip "1234567890")) =
      Except.ok "rp_1" ∧
    (razorpayRequest 6 ("order_cart_" ++ pystrip "1234567890")).amount = 100 * 6 :=
  claim_C9 true (fun _ => (Except.ok "rp_1" : Except String String))
    ⟨[⟨1, "Cupcake", none, "6", 3, true⟩], [], [], 1⟩
    ⟨[⟨1, "Cupcake", none, "6", 3, true⟩], [], [], 1⟩
    ⟨"Jane Doe", "1234567890", "12 Baker St", none, [⟨1, 2⟩]⟩
    ⟨"rp_1", 6, pystrip "1234567890"⟩
    (by rfl)

/-- Claim C10: pricing checks only existence, not activity.  With distinct
product ids, a valid order whose cart references an inactive product is
accepted: create_order succeeds and persists the line at the inactive
product's current price, even though that product is excluded from the
menu listing. -/
theorem claim_C10 (s : Store) (now : Int) (order : OrderIn)
    (item : OrderItemIn) (p : Product)
    (hnodup : (s.products.map (fun q => q.id)).Nodup)
    (hphone : phone_ok order.phone = true)
    (hvalid : firstInvalid s order.items = none)
    (hmem : item ∈ order.items)
    (hfind : findProduct s item.product_id = some p)
    (hinactive : p.is_active = false) :
    (create_order s now order).2 = Except.ok s.next_order_id ∧
    ({ order_id := s.next_order_id, product_id := item.product_id,
       quantity := item.quantity, line_total := p.price * item.quantity } : OrderItemRow)
      ∈ (create_order s now order).1.order_items ∧
    (∀ m ∈ get_menu s, m.id ≠ p.id) := by
  have hne : order.items ≠ [] := by
    intro hnil; rw [hnil] at hmem; simp at hmem
  obtain ⟨rows, hrows⟩ := insertItems_ok s s.next_order_id order.items hvalid
  rw [create_order_commit s now order rows hne hphone hrows]
  refine ⟨rfl, List.mem_append.mpr (Or.inr
    (insertItems_mem s s.next_order_id order.items rows item p hrows hmem hfind)), ?_⟩
  intro m hm hid
  unfold get_menu at hm
  obtain ⟨q, hq_mem, hq_eq⟩ := List.mem_map.mp hm
  rw [mem_sortWith] at hq_mem
  obtain ⟨hq_in, hq_act⟩ := List.mem_filter.mp hq_mem
  have hqid : q.id = p.id := by rw [← hq_eq] at hid; exact hid
  have hp_in : p ∈ s.products := List.mem_of_find?_eq_some hfind
  have hpq : q = p := List.inj_on_of_nodup_map hnodup hq_in hp_in hqid
  rw [hpq] at hq_act
  rw [hinactive] at hq_act
  cases hq_act

/-- Witness for claim_C10 at a store whose sole product is inactive. -/
theorem claim_C10_witness :
    (create_order ⟨[⟨1, "Hidden", none, "6", 5, false⟩], [], [], 1⟩ 0
        ⟨"Jane Doe", "1234567890", "12 Baker St", none, [⟨1, 2⟩]⟩).2 = Except.ok 1 ∧
    ({ order_id := 1, product_id := 1, quantity := 2,
       line_total := (5 : Int) * 2 } : OrderItemRow) ∈
      (create_order ⟨[⟨1, "Hidden", none, "6", 5, false⟩], [], [], 1⟩ 0
        ⟨"Jane Doe", "1234567890", "12 Baker St", none, [⟨1, 2⟩]⟩).1.order_items ∧
    (∀ m ∈ get_menu ⟨[⟨1, "Hidden", none, "6", 5, false⟩], [], [], 1⟩, m.id ≠ 1) :=
  claim_C10 ⟨[⟨1, "Hidden", none, "6", 5, false⟩], [], [], 1⟩ 0
    ⟨"Jane Doe", "1234567890", "12 Baker St", none, [⟨1, 2⟩]⟩
    ⟨1, 2⟩ ⟨1, "Hidden", none, "6", 5, false⟩
    (by decide) (by decide) (by rfl) (by decide) (by rfl) (by rfl)
